import Mathlib

/-!
# KFusion driver (kfusion/src/kfusion.cpp): embedding of main

The only function of the translation unit that drives the pipeline is main.
It is embedded here as a pure function producing the trace of the calls it
makes.  Everything main calls but does not define (the Kfusion engine, the
depth reader, the vector arithmetic, malloc) is an explicit parameter:

* Machine        scalar float arithmetic, size_t width and malloc,
* DepthReader    the depth source,
* Kfusion        the engine class together with the three globals
                 (volume, vertex, normal) that main reads through pointers.

Machine integers are natural numbers (or integers) with explicit reduction
modulo 2^32 (unsigned int) or 2^size_t_bits (size_t).  The wall-clock
columns of the log (calls of tock) are not part of the model.
-/

namespace KFusion

/-! ## Plain data -/

/-- Pair of unsigned 32-bit integers (the CUDA style uint2). -/
structure uint2 where
  x : Nat
  y : Nat
deriving DecidableEq, Repr

/-- Triple of unsigned 32-bit integers. -/
structure uint3 where
  x : Nat
  y : Nat
  z : Nat
deriving DecidableEq, Repr

/-- Triple of floats over the scalar type F. -/
structure float3 (F : Type) where
  x : F
  y : F
  z : F
deriving DecidableEq, Repr

/-- Quadruple of floats over the scalar type F. -/
structure float4 (F : Type) where
  x : F
  y : F
  z : F
  w : F
deriving DecidableEq, Repr

/-- Rigid transform as four rows data[0] .. data[3] of a 4x4 matrix. -/
structure Matrix4 (F : Type) where
  data0 : float4 F
  data1 : float4 F
  data2 : float4 F
  data3 : float4 F
deriving DecidableEq, Repr

/-- The global Volume object seen by value: resolution (size) and the contents
of its voxel storage. -/
structure Volume where
  size : uint3
  data : List Nat
deriving DecidableEq, Repr

/-- Modulus of unsigned int. -/
def UINT_MOD : Nat := 4294967296

/-- Conversion of a signed int to unsigned int (usual arithmetic conversion
applied when an unsigned and a signed operand meet). -/
def toUInt (i : Int) : Nat := (i % 4294967296).toNat

/-- Unsigned 32-bit multiplication. -/
def umul (a b : Nat) : Nat := (a * b) % UINT_MOD

/-- Unsigned 32-bit division; the divisor is a signed int converted to unsigned. -/
def udiv (a : Nat) (c : Int) : Nat := a / toUInt c

/-- Platform parameters of the program: float arithmetic on the scalar type F,
the width of size_t and the contents of freshly allocated memory. -/
structure Machine (F : Type) where
  sub : F → F → F
  mul : F → F → F
  div : F → F → F
  ofInt : Int → F
  gtZero : F → Bool
  threeQuarters : F → F
  size_t_bits : Nat
  malloc : Nat → List Nat

/-- Multiplication in size_t. -/
def Machine.smul {F : Type} (M : Machine F) (a b : Nat) : Nat :=
  (a * b) % 2 ^ M.size_t_bits

/-- Modelled from the spec: the component-wise product of two float3 values
(operator of the vector-math header, which is not among the sources). -/
def float3_mul {F : Type} (M : Machine F) (a b : float3 F) : float3 F :=
  { x := M.mul a.x b.x, y := M.mul a.y b.y, z := M.mul a.z b.z }

/-- Modelled from the spec: division of the four components of a float4 by one
int scalar (operator of the vector-math header, which is not among the
sources). -/
def float4_div {F : Type} (M : Machine F) (a : float4 F) (c : Int) : float4 F :=
  { x := M.div a.x (M.ofInt c), y := M.div a.y (M.ofInt c),
    z := M.div a.z (M.ofInt c), w := M.div a.w (M.ofInt c) }

/-- Modelled from the spec: the Configuration record (its declaration is not
among the sources); the fields are those that main reads. -/
structure Configuration (F : Type) where
  compute_size_ratio : Int
  integration_rate : Int
  rendering_rate : Int
  tracking_rate : Int
  volume_resolution : uint3
  volume_size : float3 F
  initial_pos_factor : float3 F
  pyramid : List Int
  mu : F
  icp_threshold : F
  track_threshold : F
  dump_volume_file : String
  input_file : String
  log_file : String
  camera : float4 F
  camera_overrided : Bool
  fps : Int
  blocking_read : Bool

/-- Camera block of config_param. -/
structure camera_param (F : Type) where
  fx : F
  fy : F
  ox : F
  oy : F
deriving DecidableEq, Repr

/-- Raycast block of config_param. -/
structure raycast_param (F : Type) where
  near_plane : F
  far_plane : F
  step : F
  large_step : F
deriving DecidableEq, Repr

/-- The record handed to save_config. -/
structure config_param (F : Type) where
  width : Nat
  height : Nat
  vol_size : Nat
  vol_size_metric : F
  raycast : raycast_param F
  camera : camera_param F
deriving DecidableEq, Repr

/-! ## Collaborators of main -/

/-- The depth source, with state type ρ.  readNextDepthFrame returns none when
the call returns false (end of stream) and otherwise the new contents of the
input buffer and the next reader state.  make stands for the reader that main
constructs from the input file name (RawDepthReader or SceneDepthReader). -/
structure DepthReader (F ρ : Type) where
  make : String → Int → Bool → ρ
  getinputSize : ρ → uint2
  getK : ρ → float4 F
  readNextDepthFrame : ρ → Option (List Nat × ρ)

/-- The engine class with state type σ.  The state comprises the globals
volume, vertex and normal that main declares extern, and the memory they
point to.  Every method takes the state before the call and returns the state
after it; the three renderers also take the old contents of the buffer they
write.  The fields volume_data, vertex and normal are the addresses held in
volume.data and in the global pointers vertex and normal; loadShort and
loadFloat give what is stored at an address in a state, read as 16-bit values
or as floats. -/
structure Kfusion (F σ : Type) where
  construct : F → uint2 → uint3 → float3 F → float3 F → List Int → σ
  getPose : σ → Matrix4 F
  get_raycast_config : σ → F → F × F × F × F
  preprocessing : σ → List Nat → uint2 → σ
  tracking : σ → float4 F → F → Int → Nat → Bool × σ
  integration : σ → float4 F → Int → F → Nat → Bool × σ
  raycasting : σ → float4 F → F → Nat → Bool × σ
  renderDepth : σ → List Nat → uint2 → List Nat × σ
  renderTrack : σ → List Nat → uint2 → List Nat × σ
  renderVolume : σ → List Nat → uint2 → Nat → Int → float4 F → F → List Nat × σ
  dumpVolume : σ → String → σ
  volume : σ → Volume
  volume_data : σ → Nat
  vertex : σ → Nat
  normal : σ → Nat
  loadShort : σ → Nat → List Nat
  loadFloat : σ → Nat → List F

/-! ## Trace of main -/

/-- The three render buffers of main. -/
inductive Buffer where
  | depthRender
  | trackRender
  | volumeRender
deriving DecidableEq, Repr

/-- One completed call made by main.  Engine calls carry the engine state
before (pre) and after (post) the call, their arguments and their result. -/
inductive Event (F σ : Type) where
  | cerrInputSize (x y : Nat)
  | mallocInput (bytes : Nat)
  | mallocRender (b : Buffer) (bytes : Nat)
  | construct (track_threshold : F) (computationSize : uint2) (volume_resolution : uint3)
      (volume_size init_pose : float3 F) (pyramid : List Int) (post : σ)
  | logHeader
  | get_raycast_config (pre : σ)
  | save_config (c : config_param F)
  | readNextDepthFrame (depth : List Nat)
  | getPose (pre : σ) (pose : Matrix4 F)
  | save_pose (frame : Nat) (pose : Matrix4 F) (before : Bool)
  | preprocessing (pre : σ) (depth : List Nat) (inputSize : uint2) (post : σ)
  | tracking (pre : σ) (camera : float4 F) (icp_threshold : F) (tracking_rate : Int)
      (frame : Nat) (ret : Bool) (post : σ)
  | integration (pre : σ) (camera : float4 F) (integration_rate : Int) (mu : F)
      (frame : Nat) (ret : Bool) (post : σ)
  | raycasting (pre : σ) (camera : float4 F) (mu : F) (frame : Nat) (ret : Bool) (post : σ)
  | renderDepth (pre : σ) (b : Buffer) (size : uint2) (post : σ)
  | renderTrack (pre : σ) (b : Buffer) (size : uint2) (post : σ)
  | renderVolume (pre : σ) (b : Buffer) (size : uint2) (frame : Nat) (rendering_rate : Int)
      (camera : float4 F) (mu : F) (post : σ)
  | write_bitmap (b : Buffer) (frame : Nat) (width height channels : Nat) (pixels : List Nat)
  | save_tsdf (frame : Nat) (tsdf : List Nat) (voxel_count : Nat)
  | save_vertex_normal (frame : Nat) (vertex normal : List F) (pixels : Nat)
  | logRow (frame : Nat) (xt yt zt : F) (tracked integrated : Bool)
  | dumpVolume (file : String)

/-- The values fixed by main before the loop and used inside it. -/
structure Setup (F : Type) where
  inputSize : uint2
  computationSize : uint2
  camera : float4 F
  init_pose : float3 F
  p_tsdf : Nat
  voxel_count : Nat
  p_vertex : Nat
  p_normal : Nat
  pixels : Nat

/-- The variables that change from one iteration of the loop to the next. -/
structure LoopState (σ ρ : Type) where
  reader : ρ
  engine : σ
  frame : Nat
  depthRender : List Nat
  trackRender : List Nat
  volumeRender : List Nat

/-- Outcome of a run of main. -/
inductive Status where
  | assertFailed
  | exit1
  | outOfFuel
  | returned0
deriving DecidableEq, Repr

/-- Trace of a run of main: the calls made before the loop, one block of calls
per iteration of the loop, and the calls made after the loop. -/
structure Run (F σ : Type) where
  status : Status
  startup : List (Event F σ)
  frames : List (List (Event F σ))
  shutdown : List (Event F σ)

section Driver

variable {F σ ρ : Type}

/-- The four assertions at the top of main (lines 57-60). -/
def checkArgs (M : Machine F) (config : Configuration F) : Bool :=
  decide (0 < config.compute_size_ratio) && decide (0 < config.integration_rate)
    && M.gtZero config.volume_size.x && decide (0 < config.volume_resolution.x)

/-- The periodic snapshot at the end of an iteration (lines 212-215).  The two
calls are handed the pointers p_tsdf, p_vertex and p_normal that main took
before the loop (lines 138-142); the data they write is what the engine state
s at that point stores at those addresses. -/
def snapshot (E : Kfusion F σ) (su : Setup F) (frame : Nat) (s : σ) : List (Event F σ) :=
  if frame % 20 = 0 then
    [Event.save_tsdf frame (E.loadShort s su.p_tsdf) su.voxel_count,
     Event.save_vertex_normal frame (E.loadFloat s su.p_vertex) (E.loadFloat s su.p_normal)
       su.pixels]
  else []

/-- One iteration of the while loop (lines 167-235) on the depth frame that
readNextDepthFrame has just stored in the input buffer. -/
def loopBody (M : Machine F) (E : Kfusion F σ) (config : Configuration F) (su : Setup F)
    (depth : List Nat) (st : LoopState σ ρ) : List (Event F σ) × LoopState σ ρ :=
  let frame := st.frame
  let s0 := st.engine
  let pose := E.getPose s0
  let xt := M.sub pose.data0.w su.init_pose.x
  let yt := M.sub pose.data1.w su.init_pose.y
  let zt := M.sub pose.data2.w su.init_pose.z
  let s1 := E.preprocessing s0 depth su.inputSize
  let tracked := E.tracking s1 su.camera config.icp_threshold config.tracking_rate frame
  let s2 := tracked.2
  let integrated := E.integration s2 su.camera config.integration_rate config.mu frame
  let s3 := integrated.2
  let raycast := E.raycasting s3 su.camera config.mu frame
  let s4 := raycast.2
  let pose2 := E.getPose s4
  let rd := E.renderDepth s4 st.depthRender su.computationSize
  let s5 := rd.2
  let rt := E.renderTrack s5 st.trackRender su.computationSize
  let s6 := rt.2
  let rv := E.renderVolume s6 st.volumeRender su.computationSize frame config.rendering_rate
    su.camera (M.threeQuarters config.mu)
  let s7 := rv.2
  ([Event.getPose s0 pose,
    Event.save_pose frame pose true,
    Event.preprocessing s0 depth su.inputSize s1,
    Event.tracking s1 su.camera config.icp_threshold config.tracking_rate frame tracked.1 s2,
    Event.integration s2 su.camera config.integration_rate config.mu frame integrated.1 s3,
    Event.raycasting s3 su.camera config.mu frame raycast.1 s4,
    Event.getPose s4 pose2,
    Event.save_pose frame pose2 false,
    Event.renderDepth s4 Buffer.depthRender su.computationSize s5,
    Event.renderTrack s5 Buffer.trackRender su.computationSize s6,
    Event.renderVolume s6 Buffer.volumeRender su.computationSize frame config.rendering_rate
      su.camera (M.threeQuarters config.mu) s7,
    Event.write_bitmap Buffer.volumeRender frame su.computationSize.x su.computationSize.y 4 rv.1,
    Event.write_bitmap Buffer.trackRender frame su.computationSize.x su.computationSize.y 4 rt.1,
    Event.write_bitmap Buffer.depthRender frame su.computationSize.x su.computationSize.y 4 rd.1]
    ++ snapshot E su frame s7
    ++ [Event.logRow frame xt yt zt tracked.1 integrated.1],
   { reader := st.reader, engine := s7, frame := (frame + 1) % UINT_MOD,
     depthRender := rd.1, trackRender := rt.1, volumeRender := rv.1 })

/-- The while loop of main (line 165), bounded by fuel.  The result is one
block of events per iteration and, when the reader signalled the end of the
stream within the fuel, the loop state at exit. -/
def mainLoop (M : Machine F) (E : Kfusion F σ) (R : DepthReader F ρ) (config : Configuration F)
    (su : Setup F) : Nat → LoopState σ ρ → List (List (Event F σ)) × Option (LoopState σ ρ)
  | 0, _ => ([], none)
  | fuel + 1, st =>
    match R.readNextDepthFrame st.reader with
    | none => ([], some st)
    | some (depth, r) =>
      let b := loopBody M E config su depth { st with reader := r }
      let rest := mainLoop M E R config su fuel b.2
      ((Event.readNextDepthFrame depth :: b.1) :: rest.1, rest.2)

/-- The values main computes between reader construction and the loop
(lines 89-102, 138-143); s is the freshly constructed engine, from which the
pointers p_tsdf, p_vertex and p_normal are taken once. -/
def mkSetup (M : Machine F) (E : Kfusion F σ) (R : DepthReader F ρ) (config : Configuration F)
    (reader : ρ) (s : σ) : Setup F :=
  let inputSize := R.getinputSize reader
  let computationSize : uint2 :=
    { x := udiv inputSize.x config.compute_size_ratio,
      y := udiv inputSize.y config.compute_size_ratio }
  { inputSize := inputSize
    computationSize := computationSize
    camera :=
      if config.camera_overrided then float4_div M config.camera config.compute_size_ratio
      else float4_div M (R.getK reader) config.compute_size_ratio
    init_pose := float3_mul M config.initial_pos_factor config.volume_size
    p_tsdf := E.volume_data s
    voxel_count := umul (umul (E.volume s).size.x (E.volume s).size.y) (E.volume s).size.z
    p_vertex := E.vertex s
    p_normal := E.normal s
    pixels := umul computationSize.x computationSize.y }

/-- The record main fills in and hands to save_config (lines 145-161). -/
def mkConfigParam (E : Kfusion F σ) (config : Configuration F) (su : Setup F) (s : σ) :
    config_param F :=
  let rc := E.get_raycast_config s config.mu
  { width := su.computationSize.x
    height := su.computationSize.y
    vol_size := (E.volume s).size.x
    vol_size_metric := config.volume_size.x
    raycast := { near_plane := rc.1, far_plane := rc.2.1, step := rc.2.2.1, large_step := rc.2.2.2 }
    camera := { fx := su.camera.x, fy := su.camera.y, ox := su.camera.z, oy := su.camera.w } }

/-- The reader that main constructs (lines 74-84). -/
def openReader (R : DepthReader F ρ) (config : Configuration F) : ρ :=
  R.make config.input_file config.fps config.blocking_read

/-- The computation resolution (lines 96-98). -/
def computationSizeOf (R : DepthReader F ρ) (config : Configuration F) : uint2 :=
  { x := udiv (R.getinputSize (openReader R config)).x config.compute_size_ratio,
    y := udiv (R.getinputSize (openReader R config)).y config.compute_size_ratio }

/-- The engine object constructed at lines 117-121; the global track_threshold
is assigned just before the constructor runs. -/
def startEngine (M : Machine F) (E : Kfusion F σ) (R : DepthReader F ρ)
    (config : Configuration F) : σ :=
  E.construct config.track_threshold (computationSizeOf R config) config.volume_resolution
    config.volume_size (float3_mul M config.initial_pos_factor config.volume_size)
    config.pyramid

/-- The loop-invariant values of a run of main. -/
def setupOf (M : Machine F) (E : Kfusion F σ) (R : DepthReader F ρ)
    (config : Configuration F) : Setup F :=
  mkSetup M E R config (openReader R config) (startEngine M E R config)

/-- Size in bytes requested for each render buffer (lines 108-113):
sizeof(uchar4) * computationSize.x * computationSize.y in size_t. -/
def renderBytes (M : Machine F) (R : DepthReader F ρ) (config : Configuration F) : Nat :=
  M.smul (M.smul 4 (computationSizeOf R config).x) (computationSizeOf R config).y

/-- Size in bytes requested for the input buffer (lines 106-107). -/
def inputBytes (M : Machine F) (R : DepthReader F ρ) (config : Configuration F) : Nat :=
  M.smul (M.smul 2 (R.getinputSize (openReader R config)).x)
    (R.getinputSize (openReader R config)).y

/-- The calls main makes between the argument checks and the loop. -/
def startupEvents (M : Machine F) (E : Kfusion F σ) (R : DepthReader F ρ)
    (config : Configuration F) : List (Event F σ) :=
  [Event.cerrInputSize (R.getinputSize (openReader R config)).x
     (R.getinputSize (openReader R config)).y,
   Event.mallocInput (inputBytes M R config),
   Event.mallocRender Buffer.depthRender (renderBytes M R config),
   Event.mallocRender Buffer.trackRender (renderBytes M R config),
   Event.mallocRender Buffer.volumeRender (renderBytes M R config),
   Event.construct config.track_threshold (computationSizeOf R config) config.volume_resolution
     config.volume_size (float3_mul M config.initial_pos_factor config.volume_size)
     config.pyramid (startEngine M E R config),
   Event.logHeader,
   Event.get_raycast_config (startEngine M E R config),
   Event.save_config (mkConfigParam E config (setupOf M E R config) (startEngine M E R config))]

/-- The loop state on entry to the while loop: frame is 0 (line 115). -/
def initialLoopState (M : Machine F) (E : Kfusion F σ) (R : DepthReader F ρ)
    (config : Configuration F) : LoopState σ ρ :=
  { reader := openReader R config, engine := startEngine M E R config, frame := 0,
    depthRender := M.malloc (renderBytes M R config),
    trackRender := M.malloc (renderBytes M R config),
    volumeRender := M.malloc (renderBytes M R config) }

/-- The function main.  A failed assertion aborts, an empty input file name
exits with status 1, otherwise the reader and the engine are set up and the
loop runs until the reader signals the end of the stream (or the fuel is
used up); the volume is dumped at the end when a dump file is configured. -/
def main (M : Machine F) (E : Kfusion F σ) (R : DepthReader F ρ) (config : Configuration F)
    (fuel : Nat) : Run F σ :=
  if checkArgs M config = false then
    { status := Status.assertFailed, startup := [], frames := [], shutdown := [] }
  else if config.input_file = "" then
    { status := Status.exit1, startup := [], frames := [], shutdown := [] }
  else
    let r := mainLoop M E R config (setupOf M E R config) fuel (initialLoopState M E R config)
    match r.2 with
    | none =>
      { status := Status.outOfFuel, startup := startupEvents M E R config, frames := r.1,
        shutdown := [] }
    | some _ =>
      { status := Status.returned0, startup := startupEvents M E R config, frames := r.1,
        shutdown := if config.dump_volume_file = "" then []
                    else [Event.dumpVolume config.dump_volume_file] }

/-- The depth frames the reader hands out in at most n successive reads. -/
def delivered (R : DepthReader F ρ) : Nat → ρ → List (List Nat)
  | 0, _ => []
  | n + 1, r =>
    match R.readNextDepthFrame r with
    | none => []
    | some (depth, r1) => depth :: delivered R n r1

end Driver

/-! ## Views of the trace

Each view keeps the events one property talks about and drops the rest. -/

section Views

variable {F σ : Type}

/-- The four pipeline stages. -/
inductive Stage where
  | preprocessing
  | tracking
  | integration
  | raycasting
deriving DecidableEq, Repr

/-- Stage calls, with the engine state before and after the call. -/
def Event.stageCall : Event F σ → Option (Stage × σ × σ)
  | Event.preprocessing pre _ _ post => some (Stage.preprocessing, pre, post)
  | Event.tracking pre _ _ _ _ _ post => some (Stage.tracking, pre, post)
  | Event.integration pre _ _ _ _ _ post => some (Stage.integration, pre, post)
  | Event.raycasting pre _ _ _ _ post => some (Stage.raycasting, pre, post)
  | _ => none

/-- What the verdict bookkeeping of a frame consists of. -/
inductive Verdict where
  | tracking (frame : Nat) (ret : Bool)
  | integration (frame : Nat) (ret : Bool)
  | raycasting (frame : Nat)
  | logRow (frame : Nat) (tracked integrated : Bool)
deriving DecidableEq, Repr

/-- The verdicts returned by tracking and integration, the raycasting call and
the flags written to the log. -/
def Event.verdict : Event F σ → Option Verdict
  | Event.tracking _ _ _ _ frame ret _ => some (Verdict.tracking frame ret)
  | Event.integration _ _ _ _ frame ret _ => some (Verdict.integration frame ret)
  | Event.raycasting _ _ _ frame _ _ => some (Verdict.raycasting frame)
  | Event.logRow frame _ _ _ tracked integrated => some (Verdict.logRow frame tracked integrated)
  | _ => none

/-- What the integration gate of a frame consists of. -/
inductive Gate where
  | tracked (ret : Bool)
  | integrated (frame : Nat) (integration_rate : Int) (ret : Bool) (before after : Volume)
deriving DecidableEq, Repr

/-- The tracking verdict, and the integration call with its verdict and the
volume before and after it. -/
def Event.gate (E : Kfusion F σ) : Event F σ → Option Gate
  | Event.tracking _ _ _ _ _ ret _ => some (Gate.tracked ret)
  | Event.integration pre _ rate _ frame ret post =>
      some (Gate.integrated frame rate ret (E.volume pre) (E.volume post))
  | _ => none

/-- Voxel count handed to save_tsdf. -/
def Event.voxelCount : Event F σ → Option Nat
  | Event.save_tsdf _ _ voxel_count => some voxel_count
  | _ => none

/-- Requested size of a render buffer. -/
def Event.renderAlloc : Event F σ → Option (Buffer × Nat)
  | Event.mallocRender b bytes => some (b, bytes)
  | _ => none

/-- Width and height handed to a renderer or to write_bitmap, with the buffer
the call works on. -/
def Event.renderSize : Event F σ → Option (Buffer × Nat × Nat)
  | Event.renderDepth _ b size _ => some (b, size.x, size.y)
  | Event.renderTrack _ b size _ => some (b, size.x, size.y)
  | Event.renderVolume _ b size _ _ _ _ _ => some (b, size.x, size.y)
  | Event.write_bitmap b _ width height _ _ => some (b, width, height)
  | _ => none

/-- Pixel count handed to save_vertex_normal. -/
def Event.pixelCount : Event F σ → Option Nat
  | Event.save_vertex_normal _ _ _ pixels => some pixels
  | _ => none

/-- The frame index an event carries, if any. -/
def Event.frameArg : Event F σ → Option Nat
  | Event.save_pose frame _ _ => some frame
  | Event.tracking _ _ _ _ frame _ _ => some frame
  | Event.integration _ _ _ _ frame _ _ => some frame
  | Event.raycasting _ _ _ frame _ _ => some frame
  | Event.renderVolume _ _ _ frame _ _ _ _ => some frame
  | Event.write_bitmap _ frame _ _ _ _ => some frame
  | Event.save_tsdf frame _ _ => some frame
  | Event.save_vertex_normal frame _ _ _ => some frame
  | Event.logRow frame _ _ _ _ _ => some frame
  | _ => none

/-- The engine calls that take the frame index. -/
inductive Indexed where
  | tracking
  | integration
  | raycasting
  | renderVolume
deriving DecidableEq, Repr

/-- Frame index received by tracking, integration, raycasting and renderVolume. -/
def Event.indexed : Event F σ → Option (Indexed × Nat)
  | Event.tracking _ _ _ _ frame _ _ => some (Indexed.tracking, frame)
  | Event.integration _ _ _ _ frame _ _ => some (Indexed.integration, frame)
  | Event.raycasting _ _ _ frame _ _ => some (Indexed.raycasting, frame)
  | Event.renderVolume _ _ _ frame _ _ _ _ => some (Indexed.renderVolume, frame)
  | _ => none

/-- What the position columns of a log row depend on. -/
inductive PoseLog (F σ : Type) where
  | getPose (pre : σ) (pose : Matrix4 F)
  | preprocessing (pre : σ)
  | tracking (ret : Bool)
  | integration (ret : Bool)
  | logRow (frame : Nat) (xt yt zt : F) (tracked integrated : Bool)

/-- The pose reads, the stage calls that precede the row and the row itself. -/
def Event.poseLog : Event F σ → Option (PoseLog F σ)
  | Event.getPose pre pose => some (PoseLog.getPose pre pose)
  | Event.preprocessing pre _ _ _ => some (PoseLog.preprocessing pre)
  | Event.tracking _ _ _ _ _ ret _ => some (PoseLog.tracking ret)
  | Event.integration _ _ _ _ _ ret _ => some (PoseLog.integration ret)
  | Event.logRow frame xt yt zt tracked integrated =>
      some (PoseLog.logRow frame xt yt zt tracked integrated)
  | _ => none

/-- The X, Y, Z columns of the log row of a block. -/
def rowXYZ (blk : List (Event F σ)) : List (F × F × F) :=
  blk.filterMap fun e =>
    match e with
    | Event.logRow _ xt yt zt _ _ => some (xt, yt, zt)
    | _ => none

/-- Camera intrinsics received by an engine call. -/
def Event.cameraArg : Event F σ → Option (Indexed × float4 F)
  | Event.tracking _ camera _ _ _ _ _ => some (Indexed.tracking, camera)
  | Event.integration _ camera _ _ _ _ _ => some (Indexed.integration, camera)
  | Event.raycasting _ camera _ _ _ _ => some (Indexed.raycasting, camera)
  | Event.renderVolume _ _ _ _ _ camera _ _ => some (Indexed.renderVolume, camera)
  | _ => none

/-- Camera block of the record handed to save_config. -/
def Event.savedCamera : Event F σ → Option (camera_param F)
  | Event.save_config c => some c.camera
  | _ => none

end Views

/-! ## The engine as the specification describes it -/

section SpecEngine

variable {F : Type}

/-- Modelled from the spec: the numerical kernels of the engine (sections 4.1
to 4.4 of the specification).  The engine is not among the sources, so the
kernels are uninterpreted functions. -/
structure Kernels (F : Type) where
  initialPose : float3 F → Matrix4 F
  resetVolume : uint3 → float3 F → List Nat
  raycastConfig : F → F × F × F × F
  buildPyramid : List Nat → uint2 → List F
  icp : Matrix4 F → List F → List F → List F → float4 F → F → F → Matrix4 F × Bool
  fuse : Volume → List Nat → Matrix4 F → float4 F → F → List Nat
  cast : Volume → Matrix4 F → float4 F → F → List F × List F
  shadeDepth : List Nat → uint2 → List Nat
  shadeTrack : List F → List F → uint2 → List Nat
  shadeVolume : Volume → Matrix4 F → float4 F → F → uint2 → List Nat

/-- Modelled from the spec: the state owned by the Fusion Engine (section 4.5):
the pose, the volume, the current pyramid, the reference vertex and normal
maps, and the verdict of the last tracking call. -/
structure EngineState (F : Type) where
  track_threshold : F
  pose : Matrix4 F
  volume : Volume
  rawDepth : List Nat
  pyramid : List F
  vertex : List F
  normal : List F
  tracked : Bool

/-- Modelled from the spec: rate gating (section 4.5), a stage runs on the
frames whose index its rate divides. -/
def selected (rate : Int) (frame : Nat) : Bool := decide ((frame : Int) % rate = 0)

/-- Modelled from the spec: the Fusion Engine of sections 4.2 to 4.5, whose
implementation is not among the sources.  Tracking is skipped on frames its
rate does not select and then counts as tracked; a failed verdict still
yields a pose; integration runs only on frames its rate selects and only when
the tracking verdict of the frame was successful; raycasting replaces the
reference maps; the renderers produce buffers on demand and keep no state.
The voxel storage and the two maps are buffers allocated once, at the
addresses 0, 1 and 2, and written in place. -/
def specKfusion (K : Kernels F) : Kfusion F (EngineState F) where
  construct := fun thr _ resolution size init_pose _ =>
    { track_threshold := thr, pose := K.initialPose init_pose,
      volume := { size := resolution, data := K.resetVolume resolution size },
      rawDepth := [], pyramid := [], vertex := [], normal := [], tracked := true }
  getPose := fun s => s.pose
  get_raycast_config := fun _ large_step => K.raycastConfig large_step
  preprocessing := fun s depth size =>
    { s with rawDepth := depth, pyramid := K.buildPyramid depth size }
  tracking := fun s camera icp_threshold rate frame =>
    if selected rate frame then
      ((K.icp s.pose s.pyramid s.vertex s.normal camera icp_threshold s.track_threshold).2,
       { s with
         pose := (K.icp s.pose s.pyramid s.vertex s.normal camera icp_threshold
                    s.track_threshold).1
         tracked := (K.icp s.pose s.pyramid s.vertex s.normal camera icp_threshold
                    s.track_threshold).2 })
    else (true, { s with tracked := true })
  integration := fun s camera rate mu frame =>
    if selected rate frame && s.tracked then
      (true, { s with
        volume := { size := s.volume.size, data := K.fuse s.volume s.rawDepth s.pose camera mu } })
    else (false, s)
  raycasting := fun s camera mu _ =>
    (true, { s with vertex := (K.cast s.volume s.pose camera mu).1,
                    normal := (K.cast s.volume s.pose camera mu).2 })
  renderDepth := fun s _ size => (K.shadeDepth s.rawDepth size, s)
  renderTrack := fun s _ size => (K.shadeTrack s.pyramid s.vertex size, s)
  renderVolume := fun s old size frame rate camera mu =>
    (if selected rate frame then K.shadeVolume s.volume s.pose camera mu size else old, s)
  dumpVolume := fun s _ => s
  volume := fun s => s.volume
  volume_data := fun _ => 0
  vertex := fun _ => 1
  normal := fun _ => 2
  loadShort := fun s p => if p = 0 then s.volume.data else []
  loadFloat := fun s p => if p = 1 then s.vertex else if p = 2 then s.normal else []

end SpecEngine

/-! ## Concrete instances used to exercise the theorems -/

/-- Integer arithmetic standing in for float arithmetic, 64-bit size_t. -/
def demoMachine : Machine Int where
  sub := fun a b => a - b
  mul := fun a b => a * b
  div := fun a b => a / b
  ofInt := fun i => i
  gtZero := fun a => decide (0 < a)
  threeQuarters := fun a => 3 * a / 4
  size_t_bits := 64
  malloc := fun _ => []

/-- Small kernels: tracking succeeds when the samples of the frame sum to less
than ten, fusing appends the frame to the voxel data. -/
def demoKernels : Kernels Int where
  initialPose := fun p =>
    { data0 := ⟨1, 0, 0, p.x⟩, data1 := ⟨0, 1, 0, p.y⟩, data2 := ⟨0, 0, 1, p.z⟩,
      data3 := ⟨0, 0, 0, 1⟩ }
  resetVolume := fun _ _ => []
  raycastConfig := fun large_step => (1, 4, 1, large_step)
  buildPyramid := fun depth _ => depth.map Int.ofNat
  icp := fun pose pyramid _ _ _ _ _ =>
    ({ pose with data0 := { pose.data0 with w := pose.data0.w + 1 } }, decide (pyramid.sum < 10))
  fuse := fun v depth _ _ _ => v.data ++ depth
  cast := fun v pose _ _ => (v.data.map Int.ofNat, [pose.data0.w])
  shadeDepth := fun depth _ => depth
  shadeTrack := fun pyramid _ _ => pyramid.map Int.toNat
  shadeVolume := fun v _ _ _ _ => v.data

/-- Reader over a 640x480 stream of three frames. -/
def demoReader : DepthReader Int (List (List Nat)) where
  make := fun _ _ _ => [[1, 2], [3, 4, 5], [6]]
  getinputSize := fun _ => { x := 640, y := 480 }
  getK := fun _ => ⟨531, 531, 320, 240⟩
  readNextDepthFrame := fun r =>
    match r with
    | [] => none
    | depth :: rest => some (depth, rest)

/-- Configuration with all sizes, resolutions and rates positive. -/
def demoConfig : Configuration Int where
  compute_size_ratio := 2
  integration_rate := 1
  rendering_rate := 4
  tracking_rate := 1
  volume_resolution := { x := 256, y := 256, z := 256 }
  volume_size := ⟨8, 8, 8⟩
  initial_pos_factor := ⟨1, 1, 0⟩
  pyramid := [10, 5, 4]
  mu := 1
  icp_threshold := 1
  track_threshold := 1
  dump_volume_file := ""
  input_file := "scene.raw"
  log_file := ""
  camera := ⟨0, 0, 0, 0⟩
  camera_overrided := false
  fps := 0
  blocking_read := false

/-- The run of main on the demo instance. -/
def demoRun : Run Int (EngineState Int) :=
  main demoMachine (specKfusion demoKernels) demoReader demoConfig 10

/-- Block of the second frame (index 1) of the demo run. -/
def demoBlock : List (Event Int (EngineState Int)) := demoRun.frames.getD 1 []

/-- Reader over a stream that never ends: every read delivers a frame. -/
def endlessReader : DepthReader Int Unit where
  make := fun _ _ _ => ()
  getinputSize := fun _ => { x := 640, y := 480 }
  getK := fun _ => ⟨531, 531, 320, 240⟩
  readNextDepthFrame := fun _ => some ([0], ())

/-- Configuration in which the tracking rate, the rendering rate and the y and z
axes of the volume resolution and of the volume size are all zero. -/
def uncheckedZeroConfig : Configuration Int :=
  { demoConfig with
    tracking_rate := 0
    rendering_rate := 0
    volume_resolution := { x := 256, y := 0, z := 0 }
    volume_size := ⟨8, 0, 0⟩ }

/-- Configuration whose integration rate is zero. -/
def zeroIntegrationRateConfig : Configuration Int :=
  { demoConfig with integration_rate := 0 }

/-- Whether an event is the construction of the engine. -/
def Event.isConstruct {F σ : Type} : Event F σ → Bool
  | Event.construct _ _ _ _ _ _ _ => true
  | _ => false

/-- Result of the tracking call of one iteration of the loop. -/
def trackingOf {F σ ρ : Type} (E : Kfusion F σ) (config : Configuration F) (su : Setup F)
    (depth : List Nat) (st : LoopState σ ρ) : Bool × σ :=
  E.tracking (E.preprocessing st.engine depth su.inputSize) su.camera config.icp_threshold
    config.tracking_rate st.frame

/-- Result of the integration call of one iteration of the loop. -/
def integrationOf {F σ ρ : Type} (E : Kfusion F σ) (config : Configuration F) (su : Setup F)
    (depth : List Nat) (st : LoopState σ ρ) : Bool × σ :=
  E.integration (trackingOf E config su depth st).2 su.camera config.integration_rate config.mu
    st.frame

/-- Result of the raycasting call of one iteration of the loop. -/
def raycastingOf {F σ ρ : Type} (E : Kfusion F σ) (config : Configuration F) (su : Setup F)
    (depth : List Nat) (st : LoopState σ ρ) : Bool × σ :=
  E.raycasting (integrationOf E config su depth st).2 su.camera config.mu st.frame

/-- Configuration asking for a volume of 2048 voxels on each axis. -/
def bigVolumeConfig : Configuration Int :=
  { demoConfig with volume_resolution := { x := 2048, y := 2048, z := 2048 } }

/-- Reader over a stream whose frames are 2^31 by 2^31 samples. -/
def hugeReader : DepthReader Int (List (List Nat)) :=
  { demoReader with getinputSize := fun _ => { x := 2147483648, y := 2147483648 } }

/-- Configuration with compute-size ratio 1. -/
def fullSizeConfig : Configuration Int :=
  { demoConfig with compute_size_ratio := 1 }

/-! ## Shared lemmas about the loop -/

section Lemmas

variable {F σ ρ : Type} (M : Machine F) (E : Kfusion F σ) (R : DepthReader F ρ)
  (config : Configuration F) (su : Setup F)

theorem loopBody_reader (depth : List Nat) (st : LoopState σ ρ) :
    (loopBody M E config su depth st).2.reader = st.reader := rfl

theorem loopBody_frame (depth : List Nat) (st : LoopState σ ρ) :
    (loopBody M E config su depth st).2.frame = (st.frame + 1) % UINT_MOD := rfl

theorem mainLoop_zero (st : LoopState σ ρ) :
    mainLoop M E R config su 0 st = ([], none) := rfl

theorem mainLoop_succ_none (fuel : Nat) (st : LoopState σ ρ)
    (h : R.readNextDepthFrame st.reader = none) :
    mainLoop M E R config su (fuel + 1) st = ([], some st) := by
  simp [mainLoop, h]

theorem mainLoop_succ_some (fuel : Nat) (st : LoopState σ ρ) (depth : List Nat) (r : ρ)
    (h : R.readNextDepthFrame st.reader = some (depth, r)) :
    mainLoop M E R config su (fuel + 1) st =
      ((Event.readNextDepthFrame depth ::
          (loopBody M E config su depth { st with reader := r }).1) ::
        (mainLoop M E R config su fuel
          (loopBody M E config su depth { st with reader := r }).2).1,
       (mainLoop M E R config su fuel
          (loopBody M E config su depth { st with reader := r }).2).2) := by
  simp [mainLoop, h]

theorem delivered_succ_none (n : Nat) (r : ρ) (h : R.readNextDepthFrame r = none) :
    delivered R (n + 1) r = [] := by
  simp [delivered, h]

theorem delivered_succ_some (n : Nat) (r r1 : ρ) (depth : List Nat)
    (h : R.readNextDepthFrame r = some (depth, r1)) :
    delivered R (n + 1) r = depth :: delivered R n r1 := by
  simp [delivered, h]

/-- The loop runs one iteration per frame the reader delivers. -/
theorem mainLoop_length (fuel : Nat) (st : LoopState σ ρ) :
    (mainLoop M E R config su fuel st).1.length = (delivered R fuel st.reader).length := by
  induction fuel generalizing st with
  | zero => simp [mainLoop, delivered]
  | succ n ih =>
    cases hr : R.readNextDepthFrame st.reader with
    | none => simp [mainLoop_succ_none M E R config su n st hr, delivered_succ_none R n _ hr]
    | some p =>
      obtain ⟨depth, r⟩ := p
      rw [mainLoop_succ_some M E R config su n st depth r hr, delivered_succ_some R n _ r depth hr]
      simp only [List.length_cons]
      rw [ih, loopBody_reader]

/-- Shape of the k-th block of the loop: it is the read of the k-th delivered
frame followed by the loop body run on it, with frame counter (start + k)
modulo 2^32. -/
theorem mainLoop_block (fuel : Nat) (st : LoopState σ ρ) (hst : st.frame < UINT_MOD)
    (k : Nat) (blk : List (Event F σ))
    (h : (mainLoop M E R config su fuel st).1[k]? = some blk) :
    ∃ (depth : List Nat) (st1 : LoopState σ ρ),
      (delivered R fuel st.reader)[k]? = some depth ∧
      st1.frame = (st.frame + k) % UINT_MOD ∧
      blk = Event.readNextDepthFrame depth :: (loopBody M E config su depth st1).1 := by
  induction fuel generalizing st k with
  | zero => simp [mainLoop] at h
  | succ n ih =>
    cases hr : R.readNextDepthFrame st.reader with
    | none => simp [mainLoop_succ_none M E R config su n st hr] at h
    | some p =>
      obtain ⟨depth, r⟩ := p
      rw [mainLoop_succ_some M E R config su n st depth r hr] at h
      rw [delivered_succ_some R n _ r depth hr]
      cases k with
      | zero =>
        refine ⟨depth, { st with reader := r }, by simp, ?_, ?_⟩
        · simp [Nat.mod_eq_of_lt hst]
        · simpa using h.symm
      | succ j =>
        simp only [List.getElem?_cons_succ] at h
        have hlt : (loopBody M E config su depth { st with reader := r }).2.frame < UINT_MOD := by
          rw [loopBody_frame]; exact Nat.mod_lt _ (by decide)
        obtain ⟨d1, st1, hd, hf, hb⟩ := ih _ hlt j h
        refine ⟨d1, st1, ?_, ?_, hb⟩
        · simpa [loopBody_reader] using hd
        · rw [hf, loopBody_frame]
          simp only [UINT_MOD]
          omega

/-- A run of main has frames only when the argument checks passed and an
input file was named; its frames are those of the loop. -/
theorem main_frames (fuel : Nat) :
    (main M E R config fuel).frames =
      if checkArgs M config = false then []
      else if config.input_file = "" then []
      else (mainLoop M E R config (setupOf M E R config) fuel
              (initialLoopState M E R config)).1 := by
  unfold main
  by_cases h1 : checkArgs M config = false
  · simp [h1]
  · by_cases h2 : config.input_file = ""
    · simp [h1, h2]
    · rw [if_neg h1, if_neg h2, if_neg h1, if_neg h2]
      dsimp only
      split <;> rfl

/-- Shape of the k-th block of a run of main. -/
theorem main_block (fuel k : Nat) (blk : List (Event F σ))
    (h : (main M E R config fuel).frames[k]? = some blk) :
    checkArgs M config = true ∧ config.input_file ≠ "" ∧
    ∃ (depth : List Nat) (st : LoopState σ ρ),
      (delivered R fuel (openReader R config))[k]? = some depth ∧
      st.frame = k % UINT_MOD ∧
      blk = Event.readNextDepthFrame depth ::
        (loopBody M E config (setupOf M E R config) depth st).1 := by
  rw [main_frames] at h
  by_cases h1 : checkArgs M config = false
  · simp [h1] at h
  · by_cases h2 : config.input_file = ""
    · simp [h1, h2] at h
    · simp only [h1, h2, if_false] at h
      refine ⟨by simpa using h1, h2, ?_⟩
      obtain ⟨depth, st, hd, hf, hb⟩ :=
        mainLoop_block M E R config (setupOf M E R config) fuel (initialLoopState M E R config)
          (by simp [initialLoopState, UINT_MOD]) k blk h
      exact ⟨depth, st, hd, by simpa [initialLoopState] using hf, hb⟩

/-- The stage calls of a block. -/
theorem block_stageCall (depth : List Nat) (st : LoopState σ ρ) :
    ∃ s1 s2 s3 s4,
      Event.preprocessing st.engine depth su.inputSize s1 ∈
        (Event.readNextDepthFrame depth :: (loopBody M E config su depth st).1) ∧
      (Event.readNextDepthFrame depth :: (loopBody M E config su depth st).1).filterMap
          Event.stageCall =
        [(Stage.preprocessing, st.engine, s1), (Stage.tracking, s1, s2),
         (Stage.integration, s2, s3), (Stage.raycasting, s3, s4)] := by
  by_cases hf : st.frame % 20 = 0 <;>
    simp [loopBody, snapshot, hf, Event.stageCall, List.filterMap_cons]

/-- The verdict bookkeeping of a block. -/
theorem block_verdict (depth : List Nat) (st : LoopState σ ρ) :
    ∃ t i,
      (Event.readNextDepthFrame depth :: (loopBody M E config su depth st).1).filterMap
          Event.verdict =
        [Verdict.tracking st.frame t, Verdict.integration st.frame i,
         Verdict.raycasting st.frame, Verdict.logRow st.frame t i] := by
  by_cases hf : st.frame % 20 = 0 <;>
    simp [loopBody, snapshot, hf, Event.verdict, List.filterMap_cons]

/-- The frame indices carried by the events of a block. -/
theorem block_frameArg (depth : List Nat) (st : LoopState σ ρ) :
    (Event.readNextDepthFrame depth :: (loopBody M E config su depth st).1).filterMap
        Event.indexed =
      [(Indexed.tracking, st.frame), (Indexed.integration, st.frame),
       (Indexed.raycasting, st.frame), (Indexed.renderVolume, st.frame)] ∧
    ∀ e ∈ Event.readNextDepthFrame depth :: (loopBody M E config su depth st).1,
      ∀ j, e.frameArg = some j → j = st.frame := by
  by_cases hf : st.frame % 20 = 0
  · refine ⟨by simp [loopBody, snapshot, hf, Event.indexed, List.filterMap_cons], ?_⟩
    intro e he j hj
    simp only [loopBody, snapshot, hf, if_true, List.mem_cons, List.mem_append, List.cons_append,
      List.nil_append, List.mem_singleton] at he
    rcases he with he | he | he | he | he | he | he | he | he | he | he | he | he | he | he | he |
      he | he | he <;> first
      | (subst he; simp [Event.frameArg] at hj; try exact hj.symm)
      | (simp at he)
  · refine ⟨by simp [loopBody, snapshot, hf, Event.indexed, List.filterMap_cons], ?_⟩
    intro e he j hj
    simp only [loopBody, snapshot, hf, if_false, List.mem_cons, List.mem_append, List.cons_append,
      List.nil_append, List.append_nil, List.mem_singleton] at he
    rcases he with he | he | he | he | he | he | he | he | he | he | he | he | he | he | he | he |
      he <;> first
      | (subst he; simp [Event.frameArg] at hj; try exact hj.symm)
      | (simp at he)

/-- When the checks pass and an input file is named, main runs one block per
delivered frame. -/
theorem main_length (fuel : Nat) (hc : checkArgs M config = true) (hin : config.input_file ≠ "") :
    (main M E R config fuel).frames.length =
      (delivered R fuel (openReader R config)).length := by
  rw [main_frames]
  simp only [hc, hin, if_false, Bool.true_eq_false]
  rw [mainLoop_length]
  rfl

/-- Every delivered frame has its block. -/
theorem main_block_exists (fuel j : Nat) (hc : checkArgs M config = true)
    (hin : config.input_file ≠ "") (d : List Nat)
    (hd : (delivered R fuel (openReader R config))[j]? = some d) :
    ∃ blk, (main M E R config fuel).frames[j]? = some blk := by
  have hlt : j < (delivered R fuel (openReader R config)).length := by
    rcases Nat.lt_or_ge j (delivered R fuel (openReader R config)).length with h | h
    · exact h
    · rw [List.getElem?_eq_none h] at hd
      cases hd
  rw [← main_length M E R config fuel hc hin] at hlt
  exact ⟨_, List.getElem?_eq_getElem hlt⟩

/-- The endless reader delivers a frame at every position below the fuel. -/
theorem delivered_endless (n j : Nat) (r : Unit) (h : j < n) :
    (delivered endlessReader n r)[j]? = some [0] := by
  induction n generalizing j r with
  | zero => omega
  | succ m ih =>
    rw [delivered_succ_some endlessReader m r () [0] rfl]
    cases j with
    | zero => simp
    | succ i =>
      simp only [List.getElem?_cons_succ]
      exact ih i () (by omega)

/-- The integration gate of a block. -/
theorem block_gate (depth : List Nat) (st : LoopState σ ρ) :
    (Event.readNextDepthFrame depth :: (loopBody M E config su depth st).1).filterMap
        (Event.gate E) =
      [Gate.tracked (trackingOf E config su depth st).1,
       Gate.integrated st.frame config.integration_rate (integrationOf E config su depth st).1
         (E.volume (trackingOf E config su depth st).2)
         (E.volume (integrationOf E config su depth st).2)] := by
  by_cases hf : st.frame % 20 = 0 <;>
    simp [loopBody, snapshot, hf, Event.gate, List.filterMap_cons, trackingOf, integrationOf]

/-- In the engine of the specification the verdict a tracking call returns is
the verdict the engine keeps. -/
theorem spec_tracking_verdict (K : Kernels F) (s : EngineState F) (camera : float4 F) (icp : F)
    (rate : Int) (frame : Nat) :
    ((specKfusion K).tracking s camera icp rate frame).2.tracked =
      ((specKfusion K).tracking s camera icp rate frame).1 := by
  unfold specKfusion
  dsimp only
  split <;> rfl

/-- In the engine of the specification integration runs only on selected frames
with a successful verdict, and when it does not run the state is unchanged. -/
theorem spec_integration_gate (K : Kernels F) (s : EngineState F) (camera : float4 F)
    (rate : Int) (mu : F) (frame : Nat) :
    (((specKfusion K).integration s camera rate mu frame).1 = true →
      selected rate frame = true ∧ s.tracked = true) ∧
    (((specKfusion K).integration s camera rate mu frame).1 = false →
      ((specKfusion K).integration s camera rate mu frame).2 = s) := by
  unfold specKfusion
  dsimp only
  by_cases hg : (selected rate frame && s.tracked) = true
  · rw [if_pos hg]
    simp only [Bool.and_eq_true] at hg
    exact ⟨fun _ => hg, fun h => by cases h⟩
  · rw [if_neg hg]
    exact ⟨fun h => (by cases h), fun _ => rfl⟩

/-- The voxel count handed to save_tsdf in a block. -/
theorem block_voxelCount (depth : List Nat) (st : LoopState σ ρ) :
    (Event.readNextDepthFrame depth :: (loopBody M E config su depth st).1).filterMap
        Event.voxelCount =
      if st.frame % 20 = 0 then [su.voxel_count] else [] := by
  by_cases hf : st.frame % 20 = 0 <;>
    simp [loopBody, snapshot, hf, Event.voxelCount, List.filterMap_cons]

/-- Three-fold unsigned product of one value. -/
theorem umul_cube (r : Nat) : umul (umul r r) r = r ^ 3 % 4294967296 := by
  unfold umul UINT_MOD
  rw [Nat.mul_mod (r * r % 4294967296) r, Nat.mod_mod, ← Nat.mul_mod]
  congr 1
  ring

/-- The sizes handed to the renderers and bitmap writers of a block. -/
theorem block_renderSize (depth : List Nat) (st : LoopState σ ρ) :
    (Event.readNextDepthFrame depth :: (loopBody M E config su depth st).1).filterMap
        Event.renderSize =
      [(Buffer.depthRender, su.computationSize.x, su.computationSize.y),
       (Buffer.trackRender, su.computationSize.x, su.computationSize.y),
       (Buffer.volumeRender, su.computationSize.x, su.computationSize.y),
       (Buffer.volumeRender, su.computationSize.x, su.computationSize.y),
       (Buffer.trackRender, su.computationSize.x, su.computationSize.y),
       (Buffer.depthRender, su.computationSize.x, su.computationSize.y)] := by
  by_cases hf : st.frame % 20 = 0 <;>
    simp [loopBody, snapshot, hf, Event.renderSize, List.filterMap_cons]

/-- The pixel count handed to save_vertex_normal in a block. -/
theorem block_pixelCount (depth : List Nat) (st : LoopState σ ρ) :
    (Event.readNextDepthFrame depth :: (loopBody M E config su depth st).1).filterMap
        Event.pixelCount =
      if st.frame % 20 = 0 then [su.pixels] else [] := by
  by_cases hf : st.frame % 20 = 0 <;>
    simp [loopBody, snapshot, hf, Event.pixelCount, List.filterMap_cons]

/-- The startup calls of a run whose checks passed. -/
theorem main_startup (fuel : Nat) (hc : checkArgs M config = true)
    (hin : config.input_file ≠ "") :
    (main M E R config fuel).startup = startupEvents M E R config := by
  unfold main
  rw [if_neg (by simp [hc]), if_neg hin]
  dsimp only
  split <;> rfl

/-- A positive int converts to unsigned int unchanged. -/
theorem toUInt_of_pos (c : Int) (h0 : 0 < c) (h1 : c < 2147483648) : toUInt c = c.toNat := by
  unfold toUInt
  rw [Int.emod_eq_of_lt (by omega) (by omega)]

/-- The checks make the compute-size ratio positive. -/
theorem checkArgs_ratio_pos (hc : checkArgs M config = true) : 0 < config.compute_size_ratio := by
  unfold checkArgs at hc
  simp only [Bool.and_eq_true, decide_eq_true_eq] at hc
  exact hc.1.1.1

/-- A size_t product that fits is the exact product. -/
theorem smul_fits (x y : Nat) (h : 4 * (x * y) < 2 ^ M.size_t_bits) :
    M.smul (M.smul 4 x) y = 4 * (x * y) := by
  unfold Machine.smul
  rcases Nat.eq_zero_or_pos y with hy | hy
  · subst hy; simp
  · have hx : 4 * x < 2 ^ M.size_t_bits := by
      have : 4 * x ≤ 4 * (x * y) := by
        apply Nat.mul_le_mul_left
        exact Nat.le_mul_of_pos_right x hy
      omega
    rw [Nat.mod_eq_of_lt hx, Nat.mul_assoc, Nat.mod_eq_of_lt h]

/-- The pose reads, verdicts and log row of a block. -/
theorem block_poseLog (depth : List Nat) (st : LoopState σ ρ) :
    (Event.readNextDepthFrame depth :: (loopBody M E config su depth st).1).filterMap
        Event.poseLog =
      [PoseLog.getPose st.engine (E.getPose st.engine),
       PoseLog.preprocessing st.engine,
       PoseLog.tracking (trackingOf E config su depth st).1,
       PoseLog.integration (integrationOf E config su depth st).1,
       PoseLog.getPose (raycastingOf E config su depth st).2
         (E.getPose (raycastingOf E config su depth st).2),
       PoseLog.logRow st.frame
         (M.sub (E.getPose st.engine).data0.w su.init_pose.x)
         (M.sub (E.getPose st.engine).data1.w su.init_pose.y)
         (M.sub (E.getPose st.engine).data2.w su.init_pose.z)
         (trackingOf E config su depth st).1 (integrationOf E config su depth st).1] := by
  by_cases hf : st.frame % 20 = 0 <;>
    simp [loopBody, snapshot, hf, Event.poseLog, List.filterMap_cons, trackingOf,
      integrationOf, raycastingOf]

/-- The position columns of the log row of a block. -/
theorem block_rowXYZ (depth : List Nat) (st : LoopState σ ρ) :
    rowXYZ (Event.readNextDepthFrame depth :: (loopBody M E config su depth st).1) =
      [(M.sub (E.getPose st.engine).data0.w su.init_pose.x,
        M.sub (E.getPose st.engine).data1.w su.init_pose.y,
        M.sub (E.getPose st.engine).data2.w su.init_pose.z)] := by
  by_cases hf : st.frame % 20 = 0 <;>
    simp [rowXYZ, loopBody, snapshot, hf, List.filterMap_cons]

/-- The camera intrinsics handed to the engine calls of a block. -/
theorem block_cameraArg (depth : List Nat) (st : LoopState σ ρ) :
    (Event.readNextDepthFrame depth :: (loopBody M E config su depth st).1).filterMap
        Event.cameraArg =
      [(Indexed.tracking, su.camera), (Indexed.integration, su.camera),
       (Indexed.raycasting, su.camera), (Indexed.renderVolume, su.camera)] := by
  by_cases hf : st.frame % 20 = 0 <;>
    simp [loopBody, snapshot, hf, Event.cameraArg, List.filterMap_cons]

/-- The loop leaves through the end of the stream when the reader delivers fewer
frames than there is fuel. -/
theorem mainLoop_finishes (fuel : Nat) (st : LoopState σ ρ)
    (h : (delivered R fuel st.reader).length < fuel) :
    ∃ fin, (mainLoop M E R config su fuel st).2 = some fin := by
  induction fuel generalizing st with
  | zero => omega
  | succ n ih =>
    cases hr : R.readNextDepthFrame st.reader with
    | none => exact ⟨st, by rw [mainLoop_succ_none M E R config su n st hr]⟩
    | some p =>
      obtain ⟨depth, r⟩ := p
      rw [delivered_succ_some R n _ r depth hr] at h
      rw [mainLoop_succ_some M E R config su n st depth r hr]
      apply ih
      rw [loopBody_reader]
      simp only [List.length_cons] at h
      show (delivered R n r).length < n
      omega

/-- A run whose checks passed returns 0 once the stream has ended. -/
theorem main_returns (fuel : Nat) (hc : checkArgs M config = true)
    (hin : config.input_file ≠ "")
    (h : (delivered R fuel (openReader R config)).length < fuel) :
    (main M E R config fuel).status = Status.returned0 := by
  obtain ⟨fin, hfin⟩ := mainLoop_finishes M E R config (setupOf M E R config) fuel
    (initialLoopState M E R config) h
  unfold main
  rw [if_neg (by simp [hc]), if_neg hin]
  dsimp only
  rw [hfin]

end Lemmas

/-! ## The claims -/

section Claims

variable {F σ ρ : Type}

/-- C1: main runs one block per depth frame the reader delivers, and in the block
of the k-th frame it calls preprocessing (on that frame), tracking, integration
and raycasting exactly once each, in this order, each stage starting from the
engine state returned by the stage before it.  This holds for every engine, so
for every value tracking and integration return. -/
theorem C1_stages_once_in_order (M : Machine F) (E : Kfusion F σ) (R : DepthReader F ρ)
    (config : Configuration F) (fuel k : Nat) (blk : List (Event F σ))
    (h : (main M E R config fuel).frames[k]? = some blk) :
    (main M E R config fuel).frames.length = (delivered R fuel (openReader R config)).length ∧
    ∃ depth s0 s1 s2 s3 s4,
      (delivered R fuel (openReader R config))[k]? = some depth ∧
      Event.preprocessing s0 depth (R.getinputSize (openReader R config)) s1 ∈ blk ∧
      blk.filterMap Event.stageCall =
        [(Stage.preprocessing, s0, s1), (Stage.tracking, s1, s2),
         (Stage.integration, s2, s3), (Stage.raycasting, s3, s4)] := by
  obtain ⟨hc, hin, depth, st, hd, _, hb⟩ := main_block M E R config fuel k blk h
  refine ⟨main_length M E R config fuel hc hin, ?_⟩
  obtain ⟨s1, s2, s3, s4, hm, hs⟩ := block_stageCall M E config (setupOf M E R config) depth st
  rw [← hb] at hm hs
  exact ⟨depth, st.engine, s1, s2, s3, s4, hd, hm, hs⟩

theorem C1_stages_once_in_order_witness :
    (main demoMachine (specKfusion demoKernels) demoReader demoConfig 10).frames[1]? =
      some demoBlock ∧
    (main demoMachine (specKfusion demoKernels) demoReader demoConfig 10).frames.length =
      (delivered demoReader 10 (openReader demoReader demoConfig)).length ∧
    ∃ depth s0 s1 s2 s3 s4,
      (delivered demoReader 10 (openReader demoReader demoConfig))[1]? = some depth ∧
      Event.preprocessing s0 depth (demoReader.getinputSize (openReader demoReader demoConfig))
        s1 ∈ demoBlock ∧
      demoBlock.filterMap Event.stageCall =
        [(Stage.preprocessing, s0, s1), (Stage.tracking, s1, s2),
         (Stage.integration, s2, s3), (Stage.raycasting, s3, s4)] :=
  ⟨rfl, C1_stages_once_in_order demoMachine (specKfusion demoKernels) demoReader demoConfig 10 1
    demoBlock rfl⟩

/-- C2 (amended): when the compute-size ratio or the integration rate is not
positive, or the x axis of the volume size is not greater than zero, or the x
axis of the volume resolution is zero, the assertions at the top of main fail:
the run aborts with an empty trace, so the engine is not constructed and no
frame is read. -/
theorem C2_checked_arguments_abort (M : Machine F) (E : Kfusion F σ) (R : DepthReader F ρ)
    (config : Configuration F) (fuel : Nat)
    (h : config.compute_size_ratio ≤ 0 ∨ config.integration_rate ≤ 0 ∨
      M.gtZero config.volume_size.x = false ∨ config.volume_resolution.x = 0) :
    main M E R config fuel =
      { status := Status.assertFailed, startup := [], frames := [], shutdown := [] } := by
  have hc : checkArgs M config = false := by
    unfold checkArgs
    rcases h with h | h | h | h
    · have : ¬ (0 < config.compute_size_ratio) := by omega
      simp [this]
    · have : ¬ (0 < config.integration_rate) := by omega
      simp [this]
    · simp [h]
    · simp [h]
  simp [main, hc]

theorem C2_checked_arguments_abort_witness :
    (zeroIntegrationRateConfig.compute_size_ratio ≤ 0 ∨
      zeroIntegrationRateConfig.integration_rate ≤ 0 ∨
      demoMachine.gtZero zeroIntegrationRateConfig.volume_size.x = false ∨
      zeroIntegrationRateConfig.volume_resolution.x = 0) ∧
    main demoMachine (specKfusion demoKernels) demoReader zeroIntegrationRateConfig 10 =
      { status := Status.assertFailed, startup := [], frames := [], shutdown := [] } :=
  ⟨Or.inr (Or.inl (by decide)),
   C2_checked_arguments_abort demoMachine (specKfusion demoKernels) demoReader
     zeroIntegrationRateConfig 10 (Or.inr (Or.inl (by decide)))⟩

/-- C2 (as stated) fails: with tracking rate 0, rendering rate 0 and zero y and z
axes of the volume resolution and size, the assertions pass, the engine is
constructed and all three frames of the stream are read and processed. -/
theorem C2_counterexample :
    uncheckedZeroConfig.tracking_rate ≤ 0 ∧ uncheckedZeroConfig.rendering_rate ≤ 0 ∧
    uncheckedZeroConfig.volume_resolution.y = 0 ∧ uncheckedZeroConfig.volume_size.z ≤ 0 ∧
    checkArgs demoMachine uncheckedZeroConfig = true ∧
    (main demoMachine (specKfusion demoKernels) demoReader uncheckedZeroConfig 10).status =
      Status.returned0 ∧
    (main demoMachine (specKfusion demoKernels) demoReader uncheckedZeroConfig 10).startup.any
      Event.isConstruct = true ∧
    (main demoMachine (specKfusion demoKernels) demoReader uncheckedZeroConfig 10).frames.length
      = 3 := by
  refine ⟨by decide, by decide, rfl, by decide, rfl, rfl, rfl, rfl⟩

/-- C4: in the block of the k-th frame the log row carries exactly the value
returned by that frame's tracking call and the value returned by that frame's
integration call, raycasting is called between them and the row whatever the
two values are, if the reader delivers a further frame the loop reads it and
processes it under the incremented frame counter, and when the stream ends
the run returns 0. -/
theorem C4_verdicts_reported_not_fatal (M : Machine F) (E : Kfusion F σ) (R : DepthReader F ρ)
    (config : Configuration F) (fuel k : Nat) (blk : List (Event F σ))
    (h : (main M E R config fuel).frames[k]? = some blk) :
    (∃ t i, blk.filterMap Event.verdict =
        [Verdict.tracking (k % UINT_MOD) t, Verdict.integration (k % UINT_MOD) i,
         Verdict.raycasting (k % UINT_MOD), Verdict.logRow (k % UINT_MOD) t i]) ∧
    (∀ d, (delivered R fuel (openReader R config))[k + 1]? = some d →
      ∃ blk1 t1 i1, (main M E R config fuel).frames[k + 1]? = some blk1 ∧
        blk1.head? = some (Event.readNextDepthFrame d) ∧
        blk1.filterMap Event.verdict =
          [Verdict.tracking ((k % UINT_MOD + 1) % UINT_MOD) t1,
           Verdict.integration ((k % UINT_MOD + 1) % UINT_MOD) i1,
           Verdict.raycasting ((k % UINT_MOD + 1) % UINT_MOD),
           Verdict.logRow ((k % UINT_MOD + 1) % UINT_MOD) t1 i1]) ∧
    ((delivered R fuel (openReader R config)).length < fuel →
      (main M E R config fuel).status = Status.returned0) := by
  obtain ⟨hc, hin, depth, st, _, hf, hb⟩ := main_block M E R config fuel k blk h
  refine ⟨?_, ?_, main_returns M E R config fuel hc hin⟩
  · obtain ⟨t, i, hv⟩ := block_verdict M E config (setupOf M E R config) depth st
    rw [← hb, hf] at hv
    exact ⟨t, i, hv⟩
  · intro d hd
    obtain ⟨blk1, h1⟩ := main_block_exists M E R config fuel (k + 1) hc hin d hd
    obtain ⟨_, _, depth1, st1, hd1, hf1, hb1⟩ := main_block M E R config fuel (k + 1) blk1 h1
    obtain ⟨t1, i1, hv1⟩ := block_verdict M E config (setupOf M E R config) depth1 st1
    have hidx : st1.frame = (k % UINT_MOD + 1) % UINT_MOD := by
      rw [hf1]; simp only [UINT_MOD]; omega
    rw [← hb1, hidx] at hv1
    have hdd : depth1 = d := by
      rw [hd] at hd1
      exact (Option.some.inj hd1).symm
    refine ⟨blk1, t1, i1, h1, ?_, hv1⟩
    rw [hb1, hdd]
    rfl

theorem C4_verdicts_reported_not_fatal_witness :
    (main demoMachine (specKfusion demoKernels) demoReader demoConfig 10).frames[1]? =
      some demoBlock ∧
    (delivered demoReader 10 (openReader demoReader demoConfig))[1 + 1]? = some [6] ∧
    (delivered demoReader 10 (openReader demoReader demoConfig)).length < 10 ∧
    (∃ t i, demoBlock.filterMap Event.verdict =
        [Verdict.tracking (1 % UINT_MOD) t, Verdict.integration (1 % UINT_MOD) i,
         Verdict.raycasting (1 % UINT_MOD), Verdict.logRow (1 % UINT_MOD) t i]) ∧
    (∃ blk1 t1 i1,
      (main demoMachine (specKfusion demoKernels) demoReader demoConfig 10).frames[1 + 1]? =
        some blk1 ∧
      blk1.head? = some (Event.readNextDepthFrame [6]) ∧
      blk1.filterMap Event.verdict =
        [Verdict.tracking ((1 % UINT_MOD + 1) % UINT_MOD) t1,
         Verdict.integration ((1 % UINT_MOD + 1) % UINT_MOD) i1,
         Verdict.raycasting ((1 % UINT_MOD + 1) % UINT_MOD),
         Verdict.logRow ((1 % UINT_MOD + 1) % UINT_MOD) t1 i1]) ∧
    (main demoMachine (specKfusion demoKernels) demoReader demoConfig 10).status =
      Status.returned0 :=
  ⟨rfl, rfl, by decide,
   (C4_verdicts_reported_not_fatal demoMachine (specKfusion demoKernels) demoReader demoConfig
     10 1 demoBlock rfl).1,
   (C4_verdicts_reported_not_fatal demoMachine (specKfusion demoKernels) demoReader demoConfig
     10 1 demoBlock rfl).2.1 [6] rfl,
   (C4_verdicts_reported_not_fatal demoMachine (specKfusion demoKernels) demoReader demoConfig
     10 1 demoBlock rfl).2.2 (by decide)⟩

/-- C7 (amended): the frame counter is an unsigned 32-bit integer that is 0 on the
first frame and is incremented once per frame and by nothing else, so the
k-th frame read (counting from 0) has index k modulo 2^32; every call of that
frame that takes the index (tracking, integration, raycasting, volume
rendering and the output calls) receives this same index; and as long as the
next frame number is below 2^32 the index of the next frame is the index of
this frame plus one, hence strictly greater. -/
theorem C7_frame_counter (M : Machine F) (E : Kfusion F σ) (R : DepthReader F ρ)
    (config : Configuration F) (fuel k : Nat) (blk : List (Event F σ))
    (h : (main M E R config fuel).frames[k]? = some blk) :
    blk.filterMap Event.indexed =
      [(Indexed.tracking, k % UINT_MOD), (Indexed.integration, k % UINT_MOD),
       (Indexed.raycasting, k % UINT_MOD), (Indexed.renderVolume, k % UINT_MOD)] ∧
    (∀ e ∈ blk, ∀ j, e.frameArg = some j → j = k % UINT_MOD) ∧
    (∀ blk1, (main M E R config fuel).frames[k + 1]? = some blk1 → k + 1 < UINT_MOD →
      ∀ e ∈ blk, ∀ e1 ∈ blk1, ∀ i j, e.frameArg = some i → e1.frameArg = some j →
        j = i + 1 ∧ i < j) := by
  obtain ⟨_, _, depth, st, _, hf, hb⟩ := main_block M E R config fuel k blk h
  obtain ⟨hi, ha⟩ := block_frameArg M E config (setupOf M E R config) depth st
  rw [← hb, hf] at hi ha
  refine ⟨hi, ha, ?_⟩
  intro blk1 h1 hlt e he e1 he1 i j hei hej
  obtain ⟨_, _, depth1, st1, _, hf1, hb1⟩ := main_block M E R config fuel (k + 1) blk1 h1
  obtain ⟨_, ha1⟩ := block_frameArg M E config (setupOf M E R config) depth1 st1
  rw [← hb1, hf1] at ha1
  have e1j := ha1 e1 he1 j hej
  have ei := ha e he i hei
  rw [Nat.mod_eq_of_lt hlt] at e1j
  rw [Nat.mod_eq_of_lt (by omega)] at ei
  omega

theorem C7_frame_counter_witness :
    (main demoMachine (specKfusion demoKernels) demoReader demoConfig 10).frames[1]? =
      some demoBlock ∧
    demoBlock.filterMap Event.indexed =
      [(Indexed.tracking, 1 % UINT_MOD), (Indexed.integration, 1 % UINT_MOD),
       (Indexed.raycasting, 1 % UINT_MOD), (Indexed.renderVolume, 1 % UINT_MOD)] ∧
    (∀ e ∈ demoBlock, ∀ j, e.frameArg = some j → j = 1 % UINT_MOD) ∧
    (∀ blk1,
      (main demoMachine (specKfusion demoKernels) demoReader demoConfig 10).frames[1 + 1]? =
        some blk1 → 1 + 1 < UINT_MOD →
      ∀ e ∈ demoBlock, ∀ e1 ∈ blk1, ∀ i j, e.frameArg = some i → e1.frameArg = some j →
        j = i + 1 ∧ i < j) :=
  ⟨rfl, C7_frame_counter demoMachine (specKfusion demoKernels) demoReader demoConfig 10 1
    demoBlock rfl⟩

/-- C7 (as stated) fails: on a stream of more than 2^32 frames the frame read
after the one with index 4294967295 has index 0, which is not greater. -/
theorem C7_counterexample :
    ∃ blkA blkB,
      (main demoMachine (specKfusion demoKernels) endlessReader demoConfig 4294967297).frames[
        4294967295]? = some blkA ∧
      (main demoMachine (specKfusion demoKernels) endlessReader demoConfig 4294967297).frames[
        4294967296]? = some blkB ∧
      blkA.filterMap Event.indexed =
        [(Indexed.tracking, 4294967295), (Indexed.integration, 4294967295),
         (Indexed.raycasting, 4294967295), (Indexed.renderVolume, 4294967295)] ∧
      blkB.filterMap Event.indexed =
        [(Indexed.tracking, 0), (Indexed.integration, 0),
         (Indexed.raycasting, 0), (Indexed.renderVolume, 0)] := by
  have hc : checkArgs demoMachine demoConfig = true := rfl
  have hin : demoConfig.input_file ≠ "" := by decide
  obtain ⟨blkA, hA⟩ := main_block_exists demoMachine (specKfusion demoKernels) endlessReader
    demoConfig 4294967297 4294967295 hc hin [0]
    (delivered_endless 4294967297 4294967295 _ (by omega))
  obtain ⟨blkB, hB⟩ := main_block_exists demoMachine (specKfusion demoKernels) endlessReader
    demoConfig 4294967297 4294967296 hc hin [0]
    (delivered_endless 4294967297 4294967296 _ (by omega))
  obtain ⟨_, _, dA, stA, _, hfA, hbA⟩ := main_block _ _ _ _ _ _ _ hA
  obtain ⟨_, _, dB, stB, _, hfB, hbB⟩ := main_block _ _ _ _ _ _ _ hB
  have iA := (block_frameArg demoMachine (specKfusion demoKernels) demoConfig
    (setupOf demoMachine (specKfusion demoKernels) endlessReader demoConfig) dA stA).1
  have iB := (block_frameArg demoMachine (specKfusion demoKernels) demoConfig
    (setupOf demoMachine (specKfusion demoKernels) endlessReader demoConfig) dB stB).1
  rw [← hbA, hfA] at iA
  rw [← hbB, hfB] at iB
  exact ⟨blkA, blkB, hA, hB, iA, iB⟩

/-- C3: with the engine of the specification, in the block of the k-th frame the
integration call reports integrated = true only if the integration rate
selects the frame index and the tracking call of the same frame returned
tracked = true; when it reports false the volume is the same after the call as
before; so whenever tracking returned false, integration reports false and
leaves the volume unmodified. -/
theorem C3_integration_gated (M : Machine F) (K : Kernels F) (R : DepthReader F ρ)
    (config : Configuration F) (fuel k : Nat) (blk : List (Event F (EngineState F)))
    (h : (main M (specKfusion K) R config fuel).frames[k]? = some blk) :
    ∃ t i before after,
      blk.filterMap (Event.gate (specKfusion K)) =
        [Gate.tracked t,
         Gate.integrated (k % UINT_MOD) config.integration_rate i before after] ∧
      (i = true → selected config.integration_rate (k % UINT_MOD) = true ∧ t = true) ∧
      (i = false → after = before) ∧
      (t = false → i = false ∧ after = before) := by
  obtain ⟨_, _, depth, st, _, hf, hb⟩ := main_block M (specKfusion K) R config fuel k blk h
  have hg := block_gate M (specKfusion K) config (setupOf M (specKfusion K) R config) depth st
  rw [← hb, hf] at hg
  have hv := spec_tracking_verdict K
    ((specKfusion K).preprocessing st.engine depth
      (setupOf M (specKfusion K) R config).inputSize)
    (setupOf M (specKfusion K) R config).camera config.icp_threshold config.tracking_rate
    st.frame
  obtain ⟨hi1, hi2⟩ := spec_integration_gate K
    (trackingOf (specKfusion K) config (setupOf M (specKfusion K) R config) depth st).2
    (setupOf M (specKfusion K) R config).camera config.integration_rate config.mu st.frame
  have hi1k : (integrationOf (specKfusion K) config (setupOf M (specKfusion K) R config)
      depth st).1 = true →
      selected config.integration_rate (k % UINT_MOD) = true ∧
      (trackingOf (specKfusion K) config (setupOf M (specKfusion K) R config) depth st).1
        = true := by
    intro hi
    obtain ⟨a, b⟩ := hi1 hi
    rw [hf] at a
    exact ⟨a, by rw [← b]; exact hv.symm⟩
  have hsame : (integrationOf (specKfusion K) config (setupOf M (specKfusion K) R config)
      depth st).1 = false →
      (specKfusion K).volume
        (integrationOf (specKfusion K) config (setupOf M (specKfusion K) R config) depth st).2 =
      (specKfusion K).volume
        (trackingOf (specKfusion K) config (setupOf M (specKfusion K) R config) depth st).2 := by
    intro hi
    exact congrArg _ (hi2 hi)
  refine ⟨_, _, _, _, hg, hi1k, hsame, ?_⟩
  intro ht
  have hif : (integrationOf (specKfusion K) config (setupOf M (specKfusion K) R config)
      depth st).1 = false := by
    cases hq : (integrationOf (specKfusion K) config (setupOf M (specKfusion K) R config)
      depth st).1 with
    | false => rfl
    | true =>
      have := (hi1k hq).2
      rw [ht] at this
      cases this
  exact ⟨hif, hsame hif⟩

theorem C3_integration_gated_witness :
    (main demoMachine (specKfusion demoKernels) demoReader demoConfig 10).frames[1]? =
      some demoBlock ∧
    ∃ t i before after,
      demoBlock.filterMap (Event.gate (specKfusion demoKernels)) =
        [Gate.tracked t,
         Gate.integrated (1 % UINT_MOD) demoConfig.integration_rate i before after] ∧
      (i = true → selected demoConfig.integration_rate (1 % UINT_MOD) = true ∧ t = true) ∧
      (i = false → after = before) ∧
      (t = false → i = false ∧ after = before) :=
  ⟨rfl, C3_integration_gated demoMachine demoKernels demoReader demoConfig 10 1 demoBlock rfl⟩

/-- C5 (amended): for a volume whose resolution is r voxels on each of the three
axes, the voxel count handed to save_tsdf (on the frames that take a snapshot)
is r cubed reduced modulo 2^32; it equals r cubed whenever r is at most 1625,
that is whenever r cubed is below 2^32. -/
theorem C5_voxel_count (M : Machine F) (E : Kfusion F σ) (R : DepthReader F ρ)
    (config : Configuration F) (fuel k : Nat) (blk : List (Event F σ)) (r : Nat)
    (h : (main M E R config fuel).frames[k]? = some blk)
    (hv : (E.volume (startEngine M E R config)).size = { x := r, y := r, z := r }) :
    blk.filterMap Event.voxelCount =
      (if k % UINT_MOD % 20 = 0 then [r ^ 3 % 4294967296] else []) ∧
    (r ≤ 1625 →
      blk.filterMap Event.voxelCount = (if k % UINT_MOD % 20 = 0 then [r ^ 3] else [])) := by
  obtain ⟨_, _, depth, st, _, hf, hb⟩ := main_block M E R config fuel k blk h
  have hc := block_voxelCount M E config (setupOf M E R config) depth st
  have hcount : (setupOf M E R config).voxel_count = r ^ 3 % 4294967296 := by
    simp only [setupOf, mkSetup, hv]
    exact umul_cube r
  rw [← hb, hf, hcount] at hc
  refine ⟨hc, ?_⟩
  intro hr
  have hlt : r ^ 3 < 4294967296 :=
    Nat.lt_of_le_of_lt (Nat.pow_le_pow_left hr 3) (by norm_num)
  rw [hc, Nat.mod_eq_of_lt hlt]

theorem C5_voxel_count_witness :
    (main demoMachine (specKfusion demoKernels) demoReader demoConfig 10).frames[0]? =
      some (demoRun.frames.getD 0 []) ∧
    ((specKfusion demoKernels).volume
      (startEngine demoMachine (specKfusion demoKernels) demoReader demoConfig)).size =
      { x := 256, y := 256, z := 256 } ∧
    (demoRun.frames.getD 0 []).filterMap Event.voxelCount =
      (if 0 % UINT_MOD % 20 = 0 then [256 ^ 3 % 4294967296] else []) ∧
    (256 ≤ 1625 →
      (demoRun.frames.getD 0 []).filterMap Event.voxelCount =
        (if 0 % UINT_MOD % 20 = 0 then [256 ^ 3] else [])) :=
  ⟨rfl, rfl,
   C5_voxel_count demoMachine (specKfusion demoKernels) demoReader demoConfig 10 0
     (demoRun.frames.getD 0 []) 256 rfl rfl⟩

/-- C5 (as stated) fails: for a volume of 2048 voxels on each axis the voxel count
handed to save_tsdf on frame 0 is 0, while 2048 cubed is 8589934592. -/
theorem C5_counterexample :
    ((specKfusion demoKernels).volume
      (startEngine demoMachine (specKfusion demoKernels) demoReader bigVolumeConfig)).size =
      { x := 2048, y := 2048, z := 2048 } ∧
    ((main demoMachine (specKfusion demoKernels) demoReader bigVolumeConfig 10).frames.getD 0
      []).filterMap Event.voxelCount = [0] ∧
    (2048 : Nat) ^ 3 = 8589934592 :=
  ⟨rfl, rfl, by norm_num⟩

/-- C6 (amended): for every input resolution (W, H) and every positive
compute-size ratio c such that 4 * (W / c) * (H / c) bytes fit in size_t, the
computation resolution is (W / c, H / c), each of the three render buffers is
requested with exactly 4 * (W / c) * (H / c) bytes, every renderer call and
every bitmap write of every frame is given the size (W / c, H / c), and the
vertex/normal pixel count is (W / c) * (H / c) reduced modulo 2^32. -/
theorem C6_render_buffers_fit (M : Machine F) (E : Kfusion F σ) (R : DepthReader F ρ)
    (config : Configuration F) (fuel k : Nat) (blk : List (Event F σ))
    (h : (main M E R config fuel).frames[k]? = some blk)
    (hint : config.compute_size_ratio < 2147483648)
    (hfit : 4 * ((R.getinputSize (openReader R config)).x / config.compute_size_ratio.toNat *
        ((R.getinputSize (openReader R config)).y / config.compute_size_ratio.toNat)) <
      2 ^ M.size_t_bits) :
    ∃ x y,
      x = (R.getinputSize (openReader R config)).x / config.compute_size_ratio.toNat ∧
      y = (R.getinputSize (openReader R config)).y / config.compute_size_ratio.toNat ∧
      0 < config.compute_size_ratio ∧
      (main M E R config fuel).startup.filterMap Event.renderAlloc =
        [(Buffer.depthRender, 4 * (x * y)), (Buffer.trackRender, 4 * (x * y)),
         (Buffer.volumeRender, 4 * (x * y))] ∧
      blk.filterMap Event.renderSize =
        [(Buffer.depthRender, x, y), (Buffer.trackRender, x, y), (Buffer.volumeRender, x, y),
         (Buffer.volumeRender, x, y), (Buffer.trackRender, x, y), (Buffer.depthRender, x, y)] ∧
      blk.filterMap Event.pixelCount =
        (if k % UINT_MOD % 20 = 0 then [x * y % 4294967296] else []) := by
  obtain ⟨hc, hin, depth, st, _, hf, hb⟩ := main_block M E R config fuel k blk h
  have hpos := checkArgs_ratio_pos M config hc
  have hu := toUInt_of_pos config.compute_size_ratio hpos hint
  have hcs : (setupOf M E R config).computationSize =
      { x := (R.getinputSize (openReader R config)).x / config.compute_size_ratio.toNat,
        y := (R.getinputSize (openReader R config)).y / config.compute_size_ratio.toNat } := by
    simp only [setupOf, mkSetup, udiv, hu]
  have hcs2 : computationSizeOf R config =
      { x := (R.getinputSize (openReader R config)).x / config.compute_size_ratio.toNat,
        y := (R.getinputSize (openReader R config)).y / config.compute_size_ratio.toNat } := by
    simp only [computationSizeOf, udiv, hu]
  have hpx : (setupOf M E R config).pixels =
      (R.getinputSize (openReader R config)).x / config.compute_size_ratio.toNat *
        ((R.getinputSize (openReader R config)).y / config.compute_size_ratio.toNat) %
        4294967296 := by
    simp only [setupOf, mkSetup, udiv, hu, umul, UINT_MOD]
  have hbytes : renderBytes M R config =
      4 * ((R.getinputSize (openReader R config)).x / config.compute_size_ratio.toNat *
        ((R.getinputSize (openReader R config)).y / config.compute_size_ratio.toNat)) := by
    unfold renderBytes
    rw [hcs2]
    exact smul_fits M _ _ hfit
  have hr := block_renderSize M E config (setupOf M E R config) depth st
  have hp := block_pixelCount M E config (setupOf M E R config) depth st
  rw [← hb, hcs] at hr
  rw [← hb, hf, hpx] at hp
  refine ⟨_, _, rfl, rfl, hpos, ?_, hr, hp⟩
  rw [main_startup M E R config fuel hc hin]
  simp [startupEvents, Event.renderAlloc, List.filterMap_cons, hbytes]

theorem C6_render_buffers_fit_witness :
    (main demoMachine (specKfusion demoKernels) demoReader demoConfig 10).frames[1]? =
      some demoBlock ∧
    demoConfig.compute_size_ratio < 2147483648 ∧
    4 * ((demoReader.getinputSize (openReader demoReader demoConfig)).x /
          demoConfig.compute_size_ratio.toNat *
        ((demoReader.getinputSize (openReader demoReader demoConfig)).y /
          demoConfig.compute_size_ratio.toNat)) < 2 ^ demoMachine.size_t_bits ∧
    ∃ x y,
      x = (demoReader.getinputSize (openReader demoReader demoConfig)).x /
          demoConfig.compute_size_ratio.toNat ∧
      y = (demoReader.getinputSize (openReader demoReader demoConfig)).y /
          demoConfig.compute_size_ratio.toNat ∧
      0 < demoConfig.compute_size_ratio ∧
      (main demoMachine (specKfusion demoKernels) demoReader demoConfig 10).startup.filterMap
          Event.renderAlloc =
        [(Buffer.depthRender, 4 * (x * y)), (Buffer.trackRender, 4 * (x * y)),
         (Buffer.volumeRender, 4 * (x * y))] ∧
      demoBlock.filterMap Event.renderSize =
        [(Buffer.depthRender, x, y), (Buffer.trackRender, x, y), (Buffer.volumeRender, x, y),
         (Buffer.volumeRender, x, y), (Buffer.trackRender, x, y), (Buffer.depthRender, x, y)] ∧
      demoBlock.filterMap Event.pixelCount =
        (if 1 % UINT_MOD % 20 = 0 then [x * y % 4294967296] else []) :=
  ⟨rfl, by decide, by decide,
   C6_render_buffers_fit demoMachine (specKfusion demoKernels) demoReader demoConfig 10 1
     demoBlock rfl (by decide) (by decide)⟩

/-- C6 (as stated) fails: for the input resolution (2^31, 2^31) and ratio 1 on a
64-bit size_t each render buffer is requested with 0 bytes, while every
renderer call and bitmap write of frame 0 is given the size 2^31 by 2^31. -/
theorem C6_counterexample :
    (main demoMachine (specKfusion demoKernels) hugeReader fullSizeConfig 10).startup.filterMap
        Event.renderAlloc =
      [(Buffer.depthRender, 0), (Buffer.trackRender, 0), (Buffer.volumeRender, 0)] ∧
    ((main demoMachine (specKfusion demoKernels) hugeReader fullSizeConfig 10).frames.getD 0
        []).filterMap Event.renderSize =
      [(Buffer.depthRender, 2147483648, 2147483648),
       (Buffer.trackRender, 2147483648, 2147483648),
       (Buffer.volumeRender, 2147483648, 2147483648),
       (Buffer.volumeRender, 2147483648, 2147483648),
       (Buffer.trackRender, 2147483648, 2147483648),
       (Buffer.depthRender, 2147483648, 2147483648)] :=
  ⟨rfl, rfl⟩

/-- C9: the X, Y, Z columns of the log row of the k-th frame are the w components
of rows 0, 1, 2 of the pose read from the engine state that preprocessing then
receives, minus the component-wise product of the initial position factor and
the volume size; the flags of the row are the values returned by that frame's
tracking and integration calls; and the three columns stay the same when the
tracking method of the engine is replaced by any other function. -/
theorem C9_logged_position (M : Machine F) (E : Kfusion F σ) (R : DepthReader F ρ)
    (config : Configuration F) (fuel k : Nat) (blk : List (Event F σ))
    (h : (main M E R config fuel).frames[k]? = some blk) :
    (∃ pre post t i,
      blk.filterMap Event.poseLog =
        [PoseLog.getPose pre (E.getPose pre),
         PoseLog.preprocessing pre,
         PoseLog.tracking t,
         PoseLog.integration i,
         PoseLog.getPose post (E.getPose post),
         PoseLog.logRow (k % UINT_MOD)
           (M.sub (E.getPose pre).data0.w
             (M.mul config.initial_pos_factor.x config.volume_size.x))
           (M.sub (E.getPose pre).data1.w
             (M.mul config.initial_pos_factor.y config.volume_size.y))
           (M.sub (E.getPose pre).data2.w
             (M.mul config.initial_pos_factor.z config.volume_size.z))
           t i]) ∧
    ∃ (depth : List Nat) (st : LoopState σ ρ),
      blk = Event.readNextDepthFrame depth ::
        (loopBody M E config (setupOf M E R config) depth st).1 ∧
      ∀ T, rowXYZ (Event.readNextDepthFrame depth ::
          (loopBody M { E with tracking := T } config (setupOf M E R config) depth st).1) =
        rowXYZ blk := by
  obtain ⟨_, _, depth, st, _, hf, hb⟩ := main_block M E R config fuel k blk h
  have hp := block_poseLog M E config (setupOf M E R config) depth st
  rw [← hb, hf] at hp
  refine ⟨⟨_, _, _, _, hp⟩, depth, st, hb, ?_⟩
  intro T
  rw [hb, block_rowXYZ, block_rowXYZ]

theorem C9_logged_position_witness :
    (main demoMachine (specKfusion demoKernels) demoReader demoConfig 10).frames[1]? =
      some demoBlock ∧
    (∃ pre post t i,
      demoBlock.filterMap Event.poseLog =
        [PoseLog.getPose pre ((specKfusion demoKernels).getPose pre),
         PoseLog.preprocessing pre,
         PoseLog.tracking t,
         PoseLog.integration i,
         PoseLog.getPose post ((specKfusion demoKernels).getPose post),
         PoseLog.logRow (1 % UINT_MOD)
           (demoMachine.sub ((specKfusion demoKernels).getPose pre).data0.w
             (demoMachine.mul demoConfig.initial_pos_factor.x demoConfig.volume_size.x))
           (demoMachine.sub ((specKfusion demoKernels).getPose pre).data1.w
             (demoMachine.mul demoConfig.initial_pos_factor.y demoConfig.volume_size.y))
           (demoMachine.sub ((specKfusion demoKernels).getPose pre).data2.w
             (demoMachine.mul demoConfig.initial_pos_factor.z demoConfig.volume_size.z))
           t i]) ∧
    ∃ (depth : List Nat) (st : LoopState (EngineState Int) (List (List Nat))),
      demoBlock = Event.readNextDepthFrame depth ::
        (loopBody demoMachine (specKfusion demoKernels) demoConfig
          (setupOf demoMachine (specKfusion demoKernels) demoReader demoConfig) depth st).1 ∧
      ∀ T, rowXYZ (Event.readNextDepthFrame depth ::
          (loopBody demoMachine { specKfusion demoKernels with tracking := T } demoConfig
            (setupOf demoMachine (specKfusion demoKernels) demoReader demoConfig) depth st).1) =
        rowXYZ demoBlock :=
  ⟨rfl, C9_logged_position demoMachine (specKfusion demoKernels) demoReader demoConfig 10 1
    demoBlock rfl⟩

/-- C10: the camera intrinsics are one value fixed before the loop: the configured
camera divided by the compute-size ratio when the configuration overrides the
camera, the reader's camera divided by the compute-size ratio otherwise.  The
record saved at startup holds its four components, tracking, integration,
raycasting and volume rendering receive it in every frame, and the ratio that
divides it is the one that divides the input resolution to give the size
handed to the renderers. -/
theorem C10_camera_fixed (M : Machine F) (E : Kfusion F σ) (R : DepthReader F ρ)
    (config : Configuration F) (fuel k : Nat) (blk : List (Event F σ))
    (h : (main M E R config fuel).frames[k]? = some blk) :
    ∃ camera x y,
      camera = (if config.camera_overrided then
                  float4_div M config.camera config.compute_size_ratio
                else float4_div M (R.getK (openReader R config)) config.compute_size_ratio) ∧
      x = udiv (R.getinputSize (openReader R config)).x config.compute_size_ratio ∧
      y = udiv (R.getinputSize (openReader R config)).y config.compute_size_ratio ∧
      (main M E R config fuel).startup.filterMap Event.savedCamera =
        [{ fx := camera.x, fy := camera.y, ox := camera.z, oy := camera.w }] ∧
      blk.filterMap Event.cameraArg =
        [(Indexed.tracking, camera), (Indexed.integration, camera),
         (Indexed.raycasting, camera), (Indexed.renderVolume, camera)] ∧
      blk.filterMap Event.renderSize =
        [(Buffer.depthRender, x, y), (Buffer.trackRender, x, y), (Buffer.volumeRender, x, y),
         (Buffer.volumeRender, x, y), (Buffer.trackRender, x, y), (Buffer.depthRender, x, y)] := by
  obtain ⟨hc, hin, depth, st, _, _, hb⟩ := main_block M E R config fuel k blk h
  have hcam := block_cameraArg M E config (setupOf M E R config) depth st
  have hr := block_renderSize M E config (setupOf M E R config) depth st
  rw [← hb] at hcam hr
  refine ⟨(setupOf M E R config).camera, _, _, rfl, rfl, rfl, ?_, hcam, hr⟩
  rw [main_startup M E R config fuel hc hin]
  simp [startupEvents, Event.savedCamera, List.filterMap_cons, mkConfigParam]

theorem C10_camera_fixed_witness :
    (main demoMachine (specKfusion demoKernels) demoReader demoConfig 10).frames[1]? =
      some demoBlock ∧
    ∃ camera x y,
      camera = (if demoConfig.camera_overrided then
                  float4_div demoMachine demoConfig.camera demoConfig.compute_size_ratio
                else float4_div demoMachine (demoReader.getK (openReader demoReader demoConfig))
                  demoConfig.compute_size_ratio) ∧
      x = udiv (demoReader.getinputSize (openReader demoReader demoConfig)).x
            demoConfig.compute_size_ratio ∧
      y = udiv (demoReader.getinputSize (openReader demoReader demoConfig)).y
            demoConfig.compute_size_ratio ∧
      (main demoMachine (specKfusion demoKernels) demoReader demoConfig 10).startup.filterMap
          Event.savedCamera =
        [{ fx := camera.x, fy := camera.y, ox := camera.z, oy := camera.w }] ∧
      demoBlock.filterMap Event.cameraArg =
        [(Indexed.tracking, camera), (Indexed.integration, camera),
         (Indexed.raycasting, camera), (Indexed.renderVolume, camera)] ∧
      demoBlock.filterMap Event.renderSize =
        [(Buffer.depthRender, x, y), (Buffer.trackRender, x, y), (Buffer.volumeRender, x, y),
         (Buffer.volumeRender, x, y), (Buffer.trackRender, x, y), (Buffer.depthRender, x, y)] :=
  ⟨rfl, C10_camera_fixed demoMachine (specKfusion demoKernels) demoReader demoConfig 10 1
    demoBlock rfl⟩

end Claims

end KFusion
